import Mathlib

/-!
Shallow embedding of the Slack connector (src/slack.py, class ConnectorSlack).

Modelling conventions:
* Python dict payloads returned by the user-lookup REST call are modelled by
  `SlackPayload`: either `dict fields` (a record, its fields an association
  list of string attributes) or `nonDict` (any non-record payload).
  The remote directory `self.slack.users.info` is modelled as a total function
  `env : String → SlackPayload` giving, for each user id, the `"user"` field
  of the response body.
* The mutable cache `self.known_users` is an association list
  `Cache = List (String × SlackPayload)`; a fresh entry is consed in front,
  which is equivalent to Python dict assignment here because the code only
  writes an id that is absent from the cache.
* Python exceptions are values of `PyErr`; fallible operations return
  `Except PyErr α` together with the cache state they leave behind and the
  number of network calls they performed.
* Coroutine effects that the claims quantify over (reconnection invocations,
  flag writes, sleeps) are recorded in explicit traces.
-/

set_option autoImplicit false

namespace ConnectorSlack

/-- A payload as classified by `type(user_info) is dict` in `lookup_username`:
either a record (Python dict of attributes) or anything else. -/
inductive SlackPayload where
  | dict (fields : List (String × String))
  | nonDict
  deriving DecidableEq

/-- Python exceptions relevant to the connector code paths. -/
inductive PyErr where
  | valueError
  | keyError
  | typeError
  deriving DecidableEq

/-- The in-memory user cache `self.known_users`. -/
abbrev Cache := List (String × SlackPayload)

/-- Membership test and read of the cache, `userid in self.known_users`
followed by `self.known_users[userid]`. -/
def cacheFind : Cache → String → Option SlackPayload
  | [], _ => none
  | (k, v) :: rest, uid => if k = uid then some v else cacheFind rest uid

/-- Field read on a record, `fields["key"]` on the underlying dict. -/
def fieldGet : List (String × String) → String → Option String
  | [], _ => none
  | (k, v) :: rest, key => if k = key then some v else fieldGet rest key

/-- Python subscript `user_info["name"]`: a KeyError when the key is absent
from a dict, a TypeError when the payload is not a dict at all. -/
def payloadGetItem : SlackPayload → String → Except PyErr String
  | SlackPayload.dict fields, key =>
    match fieldGet fields key with
    | some v => Except.ok v
    | none => Except.error PyErr.keyError
  | SlackPayload.nonDict, _ => Except.error PyErr.typeError

/-- Embedding of `ConnectorSlack.lookup_username` (src/slack.py lines 131-142):
if the id is cached return the cached payload with no network call; otherwise
perform one REST lookup, store the payload only when it is a dict, and raise
`ValueError` when it is not. Returns (result, new cache, network calls). -/
def lookup_username (env : String → SlackPayload) (cache : Cache) (userid : String) :
    Except PyErr SlackPayload × Cache × Nat :=
  match cacheFind cache userid with
  | some user_info => (Except.ok user_info, cache, 0)
  | none =>
    match env userid with
    | SlackPayload.dict fields =>
      (Except.ok (SlackPayload.dict fields), (userid, SlackPayload.dict fields) :: cache, 1)
    | SlackPayload.nonDict => (Except.error PyErr.valueError, cache, 1)

/-- Character class of the regex group `[A-Z0-9]` in `replace_usernames`. -/
def isIdChar (c : Char) : Bool :=
  (decide (Char.ofNat 65 ≤ c) && decide (c ≤ Char.ofNat 90)) ||
  (decide (Char.ofNat 48 ≤ c) && decide (c ≤ Char.ofNat 57))

/-- Fuel-indexed scanner for the regex findall over the char list: at each
position a match requires the two literal characters of the token opener, a
nonempty maximal run of id characters and the closing character; on success
scanning resumes after the match, on failure it advances one position, exactly
as the regex engine does for this pattern (which cannot backtrack into a
shorter run because no id character equals the closing character). -/
def findTokensAux : Nat → List Char → List (List Char)
  | 0, _ => []
  | _, [] => []
  | fuel + 1, c :: cs =>
    if c = Char.ofNat 60 then
      match cs with
      | d :: rest =>
        if d = Char.ofNat 64 then
          match rest.takeWhile isIdChar, rest.dropWhile isIdChar with
          | run :: more, e :: after =>
            if e = Char.ofNat 62 then (run :: more) :: findTokensAux fuel after
            else findTokensAux fuel cs
          | _, _ => findTokensAux fuel cs
        else findTokensAux fuel cs
      | [] => []
    else findTokensAux fuel cs

/-- Embedding of `re.findall` with the user-reference pattern of
`replace_usernames`: the list of captured ids, in order of occurrence. -/
def findTokens (s : List Char) : List (List Char) :=
  findTokensAux s.length s

/-- Decides whether the first list is a prefix of the second. -/
def startsWith : List Char → List Char → Bool
  | [], _ => true
  | _ :: _, [] => false
  | a :: as, b :: bs => decide (a = b) && startsWith as bs

/-- Embedding of Python `str.replace(old, new)` for a nonempty `old`:
replace every non-overlapping occurrence, scanning left to right, without
rescanning the inserted replacement text. The fuel argument (instantiated
with the length of the subject) only serves termination; it is never
exhausted because each step consumes at least one character. -/
def replaceAllAux : Nat → List Char → List Char → List Char → List Char
  | 0, s, _, _ => s
  | _, [], _, _ => []
  | fuel + 1, c :: cs, old, new =>
    if !old.isEmpty && startsWith old (c :: cs) then
      new ++ replaceAllAux fuel ((c :: cs).drop old.length) old new
    else c :: replaceAllAux fuel cs old new

/-- Python `message.replace(old, new)` on char lists. -/
def replaceAll (s old new : List Char) : List Char :=
  replaceAllAux s.length s old new

/-- The exact token text rebuilt from an id, as the format string of
`replace_usernames` line 148 does. -/
def tokenOf (userid : String) : List Char :=
  Char.ofNat 60 :: Char.ofNat 64 :: userid.data ++ [Char.ofNat 62]

/-- The loop body of `replace_usernames` (src/slack.py lines 146-149): for each
captured id in order, look the id up (a `ValueError` from `lookup_username`
propagates, there is no try block here) and replace every occurrence of its
token text with the resolved display name read from the record. -/
def replaceLoop (env : String → SlackPayload) :
    Cache → List Char → List String → Except PyErr (List Char) × Cache × Nat
  | cache, message, [] => (Except.ok message, cache, 0)
  | cache, message, userid :: rest =>
    match lookup_username env cache userid with
    | (Except.error e, c₁, n₁) => (Except.error e, c₁, n₁)
    | (Except.ok user_info, c₁, n₁) =>
      match payloadGetItem user_info "name" with
      | Except.error e => (Except.error e, c₁, n₁)
      | Except.ok nm =>
        match replaceLoop env c₁ (replaceAll message (tokenOf userid) nm.data) rest with
        | (r, c₂, n₂) => (r, c₂, n₁ + n₂)

/-- Embedding of `ConnectorSlack.replace_usernames` (src/slack.py lines
144-150): findall the embedded user-reference ids, then substitute each one.
Returns (result text or escaped exception, new cache, network calls). -/
def replace_usernames (env : String → SlackPayload) (cache : Cache) (message : String) :
    Except PyErr String × Cache × Nat :=
  let userids := (findTokens message.data).map List.asString
  match replaceLoop env cache message.data userids with
  | (Except.ok cs, c, n) => (Except.ok cs.asString, c, n)
  | (Except.error e, c, n) => (Except.error e, c, n)

/-- An inbound frame after `json.loads`, restricted to the fields the listen
loop reads. A `none` field is an absent key (subscripting it raises KeyError). -/
structure Frame where
  type : Option String
  user : Option String
  subtype : Option String
  text : Option String
  channel : Option String
  deriving DecidableEq

/-- The normalized message handed to `opsdroid.parse`: the constructor call
`Message(m["text"], user_info["name"], m["channel"], self)` with the connector
argument dropped. -/
structure Message where
  text : String
  user : String
  room : String
  deriving DecidableEq

/-- Processing of one successfully received frame by the body of
`ConnectorSlack.listen` (src/slack.py lines 82-101): classify the frame,
drop bot messages, resolve the sender (catching only `ValueError`), substitute
embedded user references (any exception here escapes), and build the
normalized message. Returns (zero or one delivered message, or the escaped
exception; the cache afterwards; network calls performed). -/
def processFrame (env : String → SlackPayload) (cache : Cache) (m : Frame) :
    Except PyErr (Option Message) × Cache × Nat :=
  match m.type, m.user with
  | some "message", some u =>
    if m.subtype = some "bot_message" then (Except.ok none, cache, 0)
    else
      match lookup_username env cache u with
      | (Except.error PyErr.valueError, c₁, n₁) => (Except.ok none, c₁, n₁)
      | (Except.error e, c₁, n₁) => (Except.error e, c₁, n₁)
      | (Except.ok user_info, c₁, n₁) =>
        match m.text with
        | none => (Except.error PyErr.keyError, c₁, n₁)
        | some txt =>
          match replace_usernames env c₁ txt with
          | (Except.error e, c₂, n₂) => (Except.error e, c₂, n₁ + n₂)
          | (Except.ok txt₂, c₂, n₂) =>
            match payloadGetItem user_info "name" with
            | Except.error e => (Except.error e, c₂, n₁ + n₂)
            | Except.ok nm =>
              match m.channel with
              | none => (Except.error PyErr.keyError, c₂, n₁ + n₂)
              | some ch => (Except.ok (some (Message.mk txt₂ nm ch)), c₂, n₁ + n₂)
  | _, _ => (Except.ok none, cache, 0)

/-- One outcome of `await self.ws.recv()`: either a `ConnectionClosed`
exception or a received frame. -/
inductive InEvent where
  | closed
  | frame (m : Frame)
  deriving DecidableEq

/-- The receive loop of `ConnectorSlack.listen` run over a finite schedule of
receive outcomes. A closed signal records one reconnection invocation with
delay 5 and the loop continues; a frame is processed and any message handed to
`opsdroid.parse` is appended; an exception escaping frame processing ends the
loop and is reported. Returns (reconnect invocations with their delays,
delivered messages, final cache, escaped exception if any). -/
def listenRun (env : String → SlackPayload) :
    Cache → List InEvent → List (Option Nat) × List Message × Cache × Option PyErr
  | cache, [] => ([], [], cache, none)
  | cache, InEvent.closed :: rest =>
    match listenRun env cache rest with
    | (recs, msgs, c, esc) => (some 5 :: recs, msgs, c, esc)
  | cache, InEvent.frame m :: rest =>
    match processFrame env cache m with
    | (Except.error e, c₁, _) => ([], [], c₁, some e)
    | (Except.ok opt, c₁, _) =>
      match listenRun env c₁ rest with
      | (recs, msgs, c₂, esc) => (recs, opt.toList ++ msgs, c₂, esc)

/-- Exceptions arising while connecting: the `aiohttp.errors.ClientOSError`
that `connect` catches, or any other exception (tagged by name, e.g. an
authentication rejection), which it does not catch. -/
inductive NetExc where
  | clientOSError
  | otherExc (tag : String)
  deriving DecidableEq

/-- Embedding of `ConnectorSlack.connect` (src/slack.py lines 38-61). The two
awaited steps inside the try block are parameters: the RTM handshake returning
the streaming URL, and the websocket open on that URL. On `ClientOSError` from
either step the handler logs and invokes `reconnect` with delay 10 and
`connect` returns normally; any other exception propagates. On success the
keepalive task is created when none is running. Returns either the propagated
exception or (keepalive task started?, reconnect invocations with delays). -/
def connect (rtmStart : Except NetExc String) (wsConnect : String → Except NetExc Unit)
    (keepaliveIdle : Bool) : Except NetExc (Bool × List (Option Nat)) :=
  match rtmStart with
  | Except.error NetExc.clientOSError => Except.ok (false, [some 10])
  | Except.error e => Except.error e
  | Except.ok url =>
    match wsConnect url with
    | Except.error NetExc.clientOSError => Except.ok (false, [some 10])
    | Except.error e => Except.error e
    | Except.ok _ => Except.ok (keepaliveIdle, [])

/-- Observable actions of `reconnect`: a write to `self.reconnecting`, the
optional sleep, and the call to `self.connect()`. -/
inductive RecAct where
  | setFlag (b : Bool)
  | sleepFor (d : Nat)
  | connectCall
  deriving DecidableEq

/-- Embedding of `ConnectorSlack.reconnect` (src/slack.py lines 63-71) as a
trace of its actions on the session. The outcome of the inner `connect` call
is a parameter; by the `finally` clause the flag reset happens on the normal
return and on the exception path alike, and the exception, if any, is then
re-raised to the caller. -/
def reconnect (delay : Option Nat) (connectResult : Except NetExc Unit) :
    Except NetExc Unit × List RecAct :=
  let sleeps := match delay with
    | some d => [RecAct.sleepFor d]
    | none => []
  (connectResult,
    RecAct.setFlag true :: sleeps ++ [RecAct.connectCall, RecAct.setFlag false])

/-- Value of the `self.reconnecting` flag after running a trace from an
initial value. -/
def runFlag (b : Bool) : List RecAct → Bool
  | [] => b
  | RecAct.setFlag c :: rest => runFlag c rest
  | RecAct.sleepFor _ :: rest => runFlag b rest
  | RecAct.connectCall :: rest => runFlag b rest

/-- Exceptions `keepalive_websocket` may see from `self.ws.send`: the four it
catches and a stand-in for anything else. -/
inductive SendErr where
  | invalidState
  | connectionClosed
  | clientOSError
  | timeoutErr
  | otherSendErr (tag : String)
  deriving DecidableEq

/-- The tuple of exception classes in the except clause of
`keepalive_websocket` (src/slack.py lines 123-126). -/
def isCaught : SendErr → Bool
  | SendErr.invalidState => true
  | SendErr.connectionClosed => true
  | SendErr.clientOSError => true
  | SendErr.timeoutErr => true
  | SendErr.otherSendErr _ => false

/-- Outcome of one `await self.ws.send(...)` of the ping frame. -/
inductive SendOutcome where
  | sendOk
  | fails (e : SendErr)
  deriving DecidableEq

/-- One iteration of the loop in `ConnectorSlack.keepalive_websocket`
(src/slack.py lines 116-129): sleep 60, increment the frame-id counter, send
the ping frame. On a caught send failure, `reconnect()` (no delay) is invoked
only when the reconnecting flag is false; an uncaught exception propagates and
kills the loop. Returns (new counter value, reconnect invocations with their
delays, propagated exception if any). -/
def keepalive_iter (reconnecting : Bool) (messageId : Nat) (send : SendOutcome) :
    Nat × List (Option Nat) × Option SendErr :=
  let newId := messageId + 1
  match send with
  | SendOutcome.sendOk => (newId, [], none)
  | SendOutcome.fails e =>
    if isCaught e then
      if reconnecting then (newId, [], none) else (newId, [none], none)
    else (newId, [], some e)

/-! Helper lemmas shared by several theorems. -/

/-- Equality on fallible results is decidable, so witnesses can be settled by
evaluation. -/
instance instDecEqExcept {α β : Type} [DecidableEq α] [DecidableEq β] :
    DecidableEq (Except α β) := fun x y =>
  match x, y with
  | Except.ok a, Except.ok b =>
    if h : a = b then isTrue (by rw [h]) else isFalse (by intro hc; injection hc; contradiction)
  | Except.error a, Except.error b =>
    if h : a = b then isTrue (by rw [h]) else isFalse (by intro hc; injection hc; contradiction)
  | Except.ok _, Except.error _ => isFalse (by intro hc; injection hc)
  | Except.error _, Except.ok _ => isFalse (by intro hc; injection hc)

theorem data_asString (s : String) : s.data.asString = s := rfl

/-- An eligible, fully resolving frame is promoted to exactly one normalized
message carrying the substituted text, the resolved sender name and the
frame's channel. -/
theorem processFrame_promotes
    (env : String → SlackPayload) (cache : Cache) (m : Frame) (u : String)
    (p : SlackPayload) (c₁ : Cache) (n₁ : Nat) (txt txt₂ nm ch : String)
    (c₂ : Cache) (n₂ : Nat)
    (htype : m.type = some "message") (huser : m.user = some u)
    (hsub : m.subtype ≠ some "bot_message")
    (hlook : lookup_username env cache u = (Except.ok p, c₁, n₁))
    (htext : m.text = some txt)
    (hrepl : replace_usernames env c₁ txt = (Except.ok txt₂, c₂, n₂))
    (hname : payloadGetItem p "name" = Except.ok nm)
    (hchan : m.channel = some ch) :
    processFrame env cache m = (Except.ok (some (Message.mk txt₂ nm ch)), c₂, n₁ + n₂) := by
  simp [processFrame, htype, huser, hsub, hlook, htext, hrepl, hname, hchan]

/-- C1: for every well-formed inbound frame of type message with a present
user field and no bot subtype, whose sender and embedded references all
resolve, the receive loop delivers exactly one normalized message, with the
frame's channel and the display name resolved for the frame's user field as
its sender. -/
theorem listen_delivers_normalized_message
    (env : String → SlackPayload) (cache : Cache) (m : Frame) (u : String)
    (p : SlackPayload) (c₁ : Cache) (n₁ : Nat) (txt txt₂ nm ch : String)
    (c₂ : Cache) (n₂ : Nat)
    (htype : m.type = some "message") (huser : m.user = some u)
    (hsub : m.subtype ≠ some "bot_message")
    (hlook : lookup_username env cache u = (Except.ok p, c₁, n₁))
    (htext : m.text = some txt)
    (hrepl : replace_usernames env c₁ txt = (Except.ok txt₂, c₂, n₂))
    (hname : payloadGetItem p "name" = Except.ok nm)
    (hchan : m.channel = some ch) :
    listenRun env cache [InEvent.frame m] =
      ([], [Message.mk txt₂ nm ch], c₂, none) := by
  have h := processFrame_promotes env cache m u p c₁ n₁ txt txt₂ nm ch c₂ n₂
    htype huser hsub hlook htext hrepl hname hchan
  simp [listenRun, h]

/-- Concrete directory for the end-to-end scenario of C1. -/
def envC1 : String → SlackPayload := fun s =>
  if s = "U1" then SlackPayload.dict [("name", "alice")] else SlackPayload.nonDict

/-- The inbound frame of the end-to-end scenario of C1. -/
def frameC1 : Frame :=
  Frame.mk (some "message") (some "U1") none (some "hi <@U1>") (some "C1")

/-- Witness for C1: the spec's end-to-end example, with the self-reference in
the text substituted from the cache populated by the sender lookup. -/
theorem listen_delivers_normalized_message_sample :
    listenRun envC1 [] [InEvent.frame frameC1] =
      ([], [Message.mk "hi alice" "alice" "C1"],
        [("U1", SlackPayload.dict [("name", "alice")])], none) :=
  listen_delivers_normalized_message envC1 [] frameC1 "U1"
    (SlackPayload.dict [("name", "alice")])
    [("U1", SlackPayload.dict [("name", "alice")])] 1
    "hi <@U1>" "hi alice" "alice" "C1"
    [("U1", SlackPayload.dict [("name", "alice")])] 0
    rfl rfl (by decide) (by decide) rfl (by decide) rfl rfl

/-- C9: the bot-message filter drops exactly the frames whose subtype string
equals bot_message: such frames produce zero normalized messages with no
lookup at all, while a message frame with a present user and any other subtype
string is still promoted once its sender and embedded references resolve. -/
theorem bot_subtype_filter_exact
    (env : String → SlackPayload) (cache : Cache) (m : Frame) (u s : String)
    (htype : m.type = some "message") (huser : m.user = some u)
    (hsubty : m.subtype = some s) :
    (s = "bot_message" → processFrame env cache m = (Except.ok none, cache, 0)) ∧
    (s ≠ "bot_message" →
      ∀ (p : SlackPayload) (c₁ : Cache) (n₁ : Nat) (txt txt₂ nm ch : String)
        (c₂ : Cache) (n₂ : Nat),
        lookup_username env cache u = (Except.ok p, c₁, n₁) →
        m.text = some txt →
        replace_usernames env c₁ txt = (Except.ok txt₂, c₂, n₂) →
        payloadGetItem p "name" = Except.ok nm →
        m.channel = some ch →
        processFrame env cache m =
          (Except.ok (some (Message.mk txt₂ nm ch)), c₂, n₁ + n₂)) := by
  constructor
  · intro hs
    subst hs
    simp [processFrame, htype, huser, hsubty]
  · intro hs p c₁ n₁ txt txt₂ nm ch c₂ n₂ hlook htext hrepl hname hchan
    exact processFrame_promotes env cache m u p c₁ n₁ txt txt₂ nm ch c₂ n₂
      htype huser (by simp [hsubty, hs]) hlook htext hrepl hname hchan

/-- Concrete directory for the C9 witness. -/
def envC9 : String → SlackPayload := fun s =>
  if s = "U1" then SlackPayload.dict [("name", "alice")] else SlackPayload.nonDict

/-- A bot-originated frame for the C9 witness. -/
def frameBot : Frame :=
  Frame.mk (some "message") (some "U1") (some "bot_message") (some "x") (some "C1")

/-- A frame with a non-bot subtype for the C9 witness. -/
def frameChanged : Frame :=
  Frame.mk (some "message") (some "U1") (some "message_changed") (some "hi") (some "C1")

/-- Witness for C9: the bot frame is dropped with no effect, while an
otherwise identical frame with subtype message_changed is promoted. -/
theorem bot_subtype_filter_exact_sample :
    processFrame envC9 [] frameBot = (Except.ok none, [], 0) ∧
    processFrame envC9 [] frameChanged =
      (Except.ok (some (Message.mk "hi" "alice" "C1")),
        [("U1", SlackPayload.dict [("name", "alice")])], 1) := by
  constructor
  · exact (bot_subtype_filter_exact envC9 [] frameBot "U1" "bot_message"
      rfl rfl rfl).1 rfl
  · exact (bot_subtype_filter_exact envC9 [] frameChanged "U1" "message_changed"
      rfl rfl rfl).2 (by decide)
      (SlackPayload.dict [("name", "alice")])
      [("U1", SlackPayload.dict [("name", "alice")])] 1
      "hi" "hi" "alice" "C1"
      [("U1", SlackPayload.dict [("name", "alice")])] 0
      rfl rfl (by decide) rfl rfl

/-- C5: a cached identifier resolves to the cached record with zero network
calls and an unchanged cache (so a repeated resolve is also free); an uncached
identifier with a record response is stored and returned after one call; and
resolving two distinct uncached identifiers in sequence performs exactly two
network calls. -/
theorem lookup_username_cache_discipline
    (env : String → SlackPayload) (cache : Cache) (uid₁ uid₂ : String)
    (v : SlackPayload) (fs : List (String × String)) :
    (cacheFind cache uid₁ = some v →
      lookup_username env cache uid₁ = (Except.ok v, cache, 0)) ∧
    (cacheFind cache uid₁ = none → env uid₁ = SlackPayload.dict fs →
      lookup_username env cache uid₁ =
        (Except.ok (SlackPayload.dict fs), (uid₁, SlackPayload.dict fs) :: cache, 1)) ∧
    (cacheFind cache uid₁ = none → cacheFind cache uid₂ = none → uid₁ ≠ uid₂ →
      (lookup_username env cache uid₁).2.2 +
        (lookup_username env (lookup_username env cache uid₁).2.1 uid₂).2.2 = 2) := by
  have key : ∀ c : Cache, cacheFind c uid₂ = none →
      (lookup_username env c uid₂).2.2 = 1 := by
    intro c hc
    cases he : env uid₂ <;> simp [lookup_username, hc, he]
  refine ⟨?_, ?_, ?_⟩
  · intro h
    simp [lookup_username, h]
  · intro h he
    simp [lookup_username, h, he]
  · intro h₁ h₂ hne
    cases he₁ : env uid₁ with
    | dict fs₁ =>
      have hcons : cacheFind ((uid₁, SlackPayload.dict fs₁) :: cache) uid₂ = none := by
        simp [cacheFind, hne, h₂]
      cases he₂ : env uid₂ <;>
        simp [lookup_username, h₁, he₁, hcons, he₂]
    | nonDict =>
      cases he₂ : env uid₂ <;>
        simp [lookup_username, h₁, h₂, he₁, he₂]

/-- Directory for the C5 witness: two distinct users, both records. -/
def envC5 : String → SlackPayload := fun s =>
  if s = "U1" then SlackPayload.dict [("name", "alice")]
  else if s = "U2" then SlackPayload.dict [("name", "bob")]
  else SlackPayload.nonDict

/-- Witness for C5: a cached hit is free, an uncached miss stores the record
after one call, and two distinct uncached resolves cost two calls in total. -/
theorem lookup_username_cache_discipline_sample :
    lookup_username envC5 [("U1", SlackPayload.dict [("name", "alice")])] "U1" =
      (Except.ok (SlackPayload.dict [("name", "alice")]),
        [("U1", SlackPayload.dict [("name", "alice")])], 0) ∧
    lookup_username envC5 [] "U1" =
      (Except.ok (SlackPayload.dict [("name", "alice")]),
        [("U1", SlackPayload.dict [("name", "alice")])], 1) ∧
    (lookup_username envC5 [] "U1").2.2 +
      (lookup_username envC5 (lookup_username envC5 [] "U1").2.1 "U2").2.2 = 2 := by
  refine ⟨?_, ?_, ?_⟩
  · exact (lookup_username_cache_discipline envC5
      [("U1", SlackPayload.dict [("name", "alice")])] "U1" "U2"
      (SlackPayload.dict [("name", "alice")]) [("name", "alice")]).1 rfl
  · exact (lookup_username_cache_discipline envC5 [] "U1" "U2"
      (SlackPayload.dict [("name", "alice")]) [("name", "alice")]).2.1 rfl rfl
  · exact (lookup_username_cache_discipline envC5 [] "U1" "U2"
      (SlackPayload.dict [("name", "alice")]) [("name", "alice")]).2.2 rfl rfl (by decide)

/-- C10: lookup results only ever add the remote record for the requested id
to the cache, never evict or overwrite an existing entry, and never store a
non-record payload, so after a failed resolve the same identifier hits the
network again on the next resolve. -/
theorem known_users_integrity
    (env : String → SlackPayload) (cache : Cache) (uid : String)
    (r : Except PyErr SlackPayload) (c₂ : Cache) (n : Nat)
    (h : lookup_username env cache uid = (r, c₂, n)) :
    (∀ k w, cacheFind cache k = some w → cacheFind c₂ k = some w) ∧
    (∀ k w, cacheFind c₂ k = some w →
      cacheFind cache k = some w ∨
        (k = uid ∧ ∃ fs, w = SlackPayload.dict fs ∧ env uid = SlackPayload.dict fs)) ∧
    (cacheFind cache uid = none → env uid = SlackPayload.nonDict →
      c₂ = cache ∧ r = Except.error PyErr.valueError ∧
      lookup_username env c₂ uid = (Except.error PyErr.valueError, c₂, 1)) := by
  cases hc : cacheFind cache uid with
  | some v =>
    have hh : (Except.ok v, cache, 0) = (r, c₂, n) := by
      rw [← h]; simp [lookup_username, hc]
    injection hh with h₁ h₂₃
    injection h₂₃ with h₂ h₃
    subst h₁; subst h₂; subst h₃
    refine ⟨fun k w hk => hk, fun k w hk => Or.inl hk, fun hnone _ => ?_⟩
    exact absurd hnone (by simp)
  | none =>
    cases he : env uid with
    | dict fs =>
      have hh : (Except.ok (SlackPayload.dict fs), (uid, SlackPayload.dict fs) :: cache, 1) =
          (r, c₂, n) := by
        rw [← h]; simp [lookup_username, hc, he]
      injection hh with h₁ h₂₃
      injection h₂₃ with h₂ h₃
      subst h₁; subst h₂; subst h₃
      refine ⟨?_, ?_, ?_⟩
      · intro k w hk
        have hk₂ : (if uid = k then some (SlackPayload.dict fs) else cacheFind cache k) =
            cacheFind ((uid, SlackPayload.dict fs) :: cache) k := rfl
        by_cases hq : uid = k
        · subst hq
          exact absurd (hc.symm.trans hk) (by simp)
        · rw [← hk₂, if_neg hq]
          exact hk
      · intro k w hk
        have hk₂ : (if uid = k then some (SlackPayload.dict fs) else cacheFind cache k) =
            some w := hk
        by_cases hq : uid = k
        · rw [if_pos hq] at hk₂
          injection hk₂ with hw
          exact Or.inr ⟨hq.symm, fs, hw.symm, rfl⟩
        · rw [if_neg hq] at hk₂
          exact Or.inl hk₂
      · intro _ hcon
        exact absurd hcon (by simp)
    | nonDict =>
      have hh : (Except.error PyErr.valueError, cache, 1) = (r, c₂, n) := by
        rw [← h]; simp [lookup_username, hc, he]
      injection hh with h₁ h₂₃
      injection h₂₃ with h₂ h₃
      subst h₁; subst h₂; subst h₃
      refine ⟨fun k w hk => hk, fun k w hk => Or.inl hk, fun _ _ => ?_⟩
      exact ⟨rfl, rfl, by simp [lookup_username, hc, he]⟩

/-- Directory for the C10 witness: the remote returns a non-record payload. -/
def envC10 : String → SlackPayload := fun _ => SlackPayload.nonDict

/-- Witness for C10: a non-record payload is not stored, and re-resolving the
same identifier performs the network lookup again. -/
theorem known_users_integrity_sample :
    cacheFind ([] : Cache) "U1" = none ∧
    lookup_username envC10 [] "U1" = (Except.error PyErr.valueError, [], 1) :=
  ⟨rfl, ((known_users_integrity envC10 [] "U1" (Except.error PyErr.valueError) [] 1
    rfl).2.2 rfl rfl).2.2⟩

/-- C2 (amended): when the sender lookup returns a non-record payload the
event is dropped silently by the except clause around it: zero normalized
messages, no escaped exception, cache unchanged. The embedded-token lookups
of the substitution step are outside that except clause, so a non-record
payload there escapes as a ValueError (see the counterexample). -/
theorem sender_lookup_nonrecord_drops_event
    (env : String → SlackPayload) (cache : Cache) (m : Frame) (u : String)
    (htype : m.type = some "message") (huser : m.user = some u)
    (hsub : m.subtype ≠ some "bot_message")
    (hmiss : cacheFind cache u = none)
    (hnr : env u = SlackPayload.nonDict) :
    listenRun env cache [InEvent.frame m] = ([], [], cache, none) := by
  have hpf : processFrame env cache m = (Except.ok none, cache, 1) := by
    simp [processFrame, htype, huser, hsub, lookup_username, hmiss, hnr]
  simp [listenRun, hpf]

/-- Directory for the C2 theorems: sender U1 resolves, U2 is a non-record. -/
def envC2 : String → SlackPayload := fun s =>
  if s = "U1" then SlackPayload.dict [("name", "alice")] else SlackPayload.nonDict

/-- Frame whose embedded reference U2 yields a non-record payload. -/
def frameC2 : Frame :=
  Frame.mk (some "message") (some "U1") none (some "hi <@U2>") (some "C1")

/-- Message frame whose sender U9 yields a non-record payload. -/
def frameC2s : Frame :=
  Frame.mk (some "message") (some "U9") none (some "hello") (some "C1")

/-- Counterexample to C2 as stated: a message event whose sender resolves but
whose embedded-token lookup returns a non-record payload raises a ValueError
that escapes the receive loop, because the try/except around the sender lookup
does not cover the substitution step. -/
theorem embedded_lookup_nonrecord_escapes :
    listenRun envC2 [] [InEvent.frame frameC2] =
      ([], [], [("U1", SlackPayload.dict [("name", "alice")])], some PyErr.valueError) := rfl

/-- Witness for the amended C2: the sender-lookup anomaly produces zero
messages and no escaped exception. -/
theorem sender_lookup_nonrecord_drops_event_sample :
    listenRun envC2 [] [InEvent.frame frameC2s] = ([], [], [], none) :=
  sender_lookup_nonrecord_drops_event envC2 [] frameC2s "U9"
    rfl rfl (by decide) rfl rfl

/-- C3 (amended): substitution is the identity, with no lookups and no cache
writes, on any text in which the token scan finds nothing; hence a second
application yields the same text whenever the first pass's output is free of
user-reference tokens. Token-freeness is sufficient, not necessary: a display
name equal to its own token makes the output a same-text fixed point that
still contains a resolvable token. The counterexample shows a first pass
whose output still contains a resolvable token and does change under a second
application, because display names are substituted verbatim into the text. -/
theorem substitution_fixed_on_tokenfree_output
    (env : String → SlackPayload) (cache cache₂ : Cache) (t t₂ : String)
    (c : Cache) (n : Nat)
    (_hpass : replace_usernames env cache t = (Except.ok t₂, c, n))
    (hfree : findTokens t₂.data = []) :
    replace_usernames env cache₂ t₂ = (Except.ok t₂, cache₂, 0) := by
  simp [replace_usernames, hfree, replaceLoop, data_asString]

/-- Directory for the C3 theorems: U1's display name itself contains the token
of U2, and U2 resolves to bob. -/
def envC3 : String → SlackPayload := fun s =>
  if s = "U1" then SlackPayload.dict [("name", "<@U2>")]
  else if s = "U2" then SlackPayload.dict [("name", "bob")]
  else SlackPayload.nonDict

/-- Counterexample to C3 as stated: with every embedded id resolvable, one
pass leaves a resolvable token in the output (the display name of U1), so
applying the substitution a second time to its own output changes the text. -/
theorem substitution_second_pass_changes_text :
    (replace_usernames envC3 [] "pass <@U1>").1 = Except.ok "pass <@U2>" ∧
    (replace_usernames envC3 [] "pass <@U2>").1 = Except.ok "pass bob" ∧
    ("pass <@U2>" : String) ≠ "pass bob" :=
  ⟨rfl, rfl, by decide⟩

/-- Witness for the amended C3: a first pass whose output is token-free, on
which a second application is the identity. -/
theorem substitution_fixed_on_tokenfree_output_sample :
    replace_usernames envC3 [] "pass bob" = (Except.ok "pass bob", [], 0) :=
  substitution_fixed_on_tokenfree_output envC3 [] [] "pass <@U2>" "pass bob"
    [("U2", SlackPayload.dict [("name", "bob")])] 1 rfl rfl

/-- C4: every reconnect call writes true to the reconnecting flag as its first
action, before any sleep or connect invocation; the flag is not written again
until the final action; and on both exit paths (the connect outcome, normal or
exceptional, is passed through to the caller) the last action resets the flag
to false, so the flag ends false from any starting value. -/
theorem reconnect_flag_lifecycle (delay : Option Nat) (r : Except NetExc Unit) (b₀ : Bool) :
    (reconnect delay r).1 = r ∧
    (reconnect delay r).2.head? = some (RecAct.setFlag true) ∧
    (reconnect delay r).2.getLast? = some (RecAct.setFlag false) ∧
    runFlag b₀ (reconnect delay r).2 = false ∧
    RecAct.setFlag false ∉ (reconnect delay r).2.dropLast := by
  cases delay <;> simp [reconnect, runFlag, List.dropLast]

/-- C6: a heartbeat iteration whose send fails with one of the four caught
transport errors invokes reconnection, with no delay, exactly when the
reconnecting flag is false; when the flag is true no iteration ever issues an
invocation. -/
theorem keepalive_reconnect_guard (b : Bool) (mid : Nat) (s : SendOutcome) :
    ((∃ e, s = SendOutcome.fails e ∧ isCaught e = true) →
      (keepalive_iter b mid s).2.1 = if b then [] else [none]) ∧
    (b = true → (keepalive_iter b mid s).2.1 = []) := by
  constructor
  · rintro ⟨e, rfl, hce⟩
    cases b <;> simp [keepalive_iter, hce]
  · rintro rfl
    cases s with
    | sendOk => simp [keepalive_iter]
    | fails e => cases hce : isCaught e <;> simp [keepalive_iter, hce]

/-- Witness for C6: a closed-connection send failure triggers one no-delay
invocation when idle and none when already reconnecting. -/
theorem keepalive_reconnect_guard_sample :
    (keepalive_iter false 7 (SendOutcome.fails SendErr.connectionClosed)).2.1 = [none] ∧
    (keepalive_iter true 7 (SendOutcome.fails SendErr.connectionClosed)).2.1 = [] := by
  constructor
  · have h := (keepalive_reconnect_guard false 7
      (SendOutcome.fails SendErr.connectionClosed)).1
      ⟨SendErr.connectionClosed, rfl, rfl⟩
    simpa using h
  · exact (keepalive_reconnect_guard true 7
      (SendOutcome.fails SendErr.connectionClosed)).2 rfl

/-- C7: a ClientOSError from the handshake or the socket open is not
propagated: connect returns normally after invoking reconnection with delay
10; every other exception from either step propagates to the caller; and on
success no reconnection is invoked. -/
theorem connect_error_policy
    (rtmStart : Except NetExc String) (wsConnect : String → Except NetExc Unit)
    (ki : Bool) :
    (rtmStart = Except.error NetExc.clientOSError →
      connect rtmStart wsConnect ki = Except.ok (false, [some 10])) ∧
    (∀ url, rtmStart = Except.ok url →
      wsConnect url = Except.error NetExc.clientOSError →
      connect rtmStart wsConnect ki = Except.ok (false, [some 10])) ∧
    (∀ tag, rtmStart = Except.error (NetExc.otherExc tag) →
      connect rtmStart wsConnect ki = Except.error (NetExc.otherExc tag)) ∧
    (∀ url tag, rtmStart = Except.ok url →
      wsConnect url = Except.error (NetExc.otherExc tag) →
      connect rtmStart wsConnect ki = Except.error (NetExc.otherExc tag)) ∧
    (∀ url, rtmStart = Except.ok url → wsConnect url = Except.ok () →
      connect rtmStart wsConnect ki = Except.ok (ki, [])) := by
  refine ⟨?_, ?_, ?_, ?_, ?_⟩
  · intro h
    simp [connect, h]
  · intro url h hw
    simp [connect, h, hw]
  · intro tag h
    simp [connect, h]
  · intro url tag h hw
    simp [connect, h, hw]
  · intro url h hw
    simp [connect, h, hw]

/-- Witness for C7: a network-layer handshake failure is absorbed into a
delay-10 reconnection, while an authentication rejection propagates. -/
theorem connect_error_policy_sample :
    connect (Except.error NetExc.clientOSError) (fun _ => Except.ok ()) true =
      Except.ok (false, [some 10]) ∧
    connect (Except.error (NetExc.otherExc "invalid_auth")) (fun _ => Except.ok ()) true =
      Except.error (NetExc.otherExc "invalid_auth") := by
  constructor
  · exact (connect_error_policy (Except.error NetExc.clientOSError)
      (fun _ => Except.ok ()) true).1 rfl
  · exact (connect_error_policy (Except.error (NetExc.otherExc "invalid_auth"))
      (fun _ => Except.ok ()) true).2.2.1 "invalid_auth" rfl

/-- C8: a connection-closed signal during receive adds exactly one
reconnection invocation, with delay 5, in front of whatever the loop does
with the remaining schedule: the loop resumes and processes subsequent frames
rather than terminating. -/
theorem listen_closed_signal_reconnects
    (env : String → SlackPayload) (cache : Cache) (rest : List InEvent)
    (recs : List (Option Nat)) (msgs : List Message) (c₂ : Cache) (esc : Option PyErr)
    (h : listenRun env cache rest = (recs, msgs, c₂, esc)) :
    listenRun env cache (InEvent.closed :: rest) = (some 5 :: recs, msgs, c₂, esc) := by
  simp [listenRun, h]

/-- Directory for the C8 witness. -/
def envC8 : String → SlackPayload := fun s =>
  if s = "U1" then SlackPayload.dict [("name", "alice")] else SlackPayload.nonDict

/-- The valid frame fed after the closed signal in the C8 witness. -/
def frameC8 : Frame :=
  Frame.mk (some "message") (some "U1") none (some "ok") (some "C1")

/-- Witness for C8: after a closed signal followed by a valid frame, the run
shows exactly one delay-5 reconnection invocation and the frame processed. -/
theorem listen_closed_signal_reconnects_sample :
    listenRun envC8 [] [InEvent.closed, InEvent.frame frameC8] =
      ([some 5], [Message.mk "ok" "alice" "C1"],
        [("U1", SlackPayload.dict [("name", "alice")])], none) :=
  listen_closed_signal_reconnects envC8 [] [InEvent.frame frameC8]
    [] [Message.mk "ok" "alice" "C1"]
    [("U1", SlackPayload.dict [("name", "alice")])] none rfl

end ConnectorSlack
